import Mathlib

/-!
Verification of the err-githubhook webhook relay plugin.

The development shallowly embeds the two Python source files:
`githubhook.py` (the `GithubHook` errbot plugin: webhook endpoint,
routing-table commands and per-event message builders) and
`providers.py` (`CommonGitWebProvider`, `GithubHandlers`,
`GitLabHandlers`).

Modelling conventions:
- JSON payloads are the inductive `J`; subscripting a value that is not
  an object, or a missing key, models the Python `TypeError`/`KeyError`
  and is an `Except.error`.
- Template rendering is an output-only constructor `Msg.render`
  (the spec treats rendering as a pure function from fields to a
  message string).
- Python `str.split(c)` is `pySplit` on character lists, `str.lower()`
  is `pyLower`.
- The Python HMAC-SHA1 primitive from `hmac`/`hashlib` is an external
  library; it is abstracted as an explicit function parameter
  `hm : String → String → String` (secret, raw body ↦ hexdigest).
-/

/-- JSON values, as delivered by the webhook body. -/
inductive J where
  | str (s : String)
  | num (n : Int)
  | bool (b : Bool)
  | null
  | arr (elems : List J)
  | obj (fields : List (String × J))

/-- Python `d[k]` on a JSON value: `some` only when the value is an
object carrying the key. -/
def J.get : J → String → Option J
  | .obj fields, k => fields.lookup k
  | _, _ => none

/-- Python `k in d` (dict key membership). -/
def J.hasKey (j : J) (k : String) : Bool :=
  match j with
  | .obj fields => fields.any (fun p => p.1 == k)
  | _ => false

/-- Python `isinstance(x, dict)`. -/
def J.isObj : J → Bool
  | .obj _ => true
  | _ => false

/-- Python `x is None` on a JSON value (JSON null decodes to `None`). -/
def J.isNull : J → Bool
  | .null => true
  | _ => false

/-- Python `x == s` between a decoded JSON value and a string literal. -/
def J.eqStr (j : J) (s : String) : Bool :=
  match j with
  | .str t => t == s
  | _ => false

/-- Python truthiness of a decoded JSON value. -/
def J.truthy : J → Bool
  | .str s => s ≠ ""
  | .num n => n ≠ 0
  | .bool b => b
  | .null => false
  | .arr l => !l.isEmpty
  | .obj l => !l.isEmpty

/-- A Python `None`-able string (e.g. the repo identifier) as a JSON
value for inclusion in template fields. -/
def optJ : Option String → J
  | some s => J.str s
  | none => J.null

/-- A rendered chat message: `tenv().get_template(t + ".html").render(fields)`
with rendering kept fully symbolic. -/
inductive Msg where
  | render (template : String) (fields : List (String × J))

/-- Python `s.split(sep)` for a single-character separator (the source
only splits on a single character). -/
def pySplit (sep : Char) : List Char → List (List Char)
  | [] => [[]]
  | c :: rest =>
    match pySplit sep rest with
    | [] => [[]]
    | g :: gs => if c = sep then [] :: g :: gs else (c :: g) :: gs

/-- Python `sep.join(parts)` for a single-character separator. -/
def pyJoin (sep : Char) : List (List Char) → List Char
  | [] => []
  | [g] => g
  | g :: rest => g ++ sep :: pyJoin sep rest

/-- Python `s.lower()` (ASCII payloads in practice). -/
def pyLower (s : String) : String := String.mk (s.data.map Char.toLower)

/-- An inbound HTTP request as bottle presents it to the plugin:
`content_type`, the header map, the raw body (`request.body.read()`),
and `request.json` (`none` models the `ValueError` of an unparseable
body). -/
structure Request where
  content_type : String
  headers : List (String × String)
  body : String
  json : Option J

/-- `request.get_header(name)`. -/
def get_header (r : Request) (name : String) : Option String :=
  r.headers.lookup name

/-- Python subscripting `j[k]` inside a message builder: a missing key
(`KeyError`) or a non-object value (`TypeError`) raises, modeled as
`Except.error`. -/
def jget (j : J) (k : String) : Except Unit J :=
  match j.get k with
  | some v => Except.ok v
  | none => Except.error ()

/-- A place where Python applies a string operation (slicing, `.split`,
`.lower`, `.format` of a string field): non-string values raise. -/
def jstr (j : J) : Except Unit String :=
  match j with
  | .str s => Except.ok s
  | _ => Except.error ()

namespace GithubHandlers

/-- `GithubHandlers.valid_message(request, token)` from `providers.py`:
read `X-Hub-Signature`, unpack `alg, sig = signature.split('=')`
(a `ValueError` returns `False`), require `alg == 'sha1'`, then
constant-time compare the hex HMAC-SHA1 of the raw body under `token`
against `sig`.  `hm` is the `hmac.new(token, body, sha1).hexdigest()`
library primitive. -/
def valid_message (hm : String → String → String) (r : Request) (token : String) : Bool :=
  match get_header r "X-Hub-Signature" with
  | none => false
  | some signature =>
    match pySplit '=' signature.data with
    | [alg, sig] =>
      if alg ≠ "sha1".data then false
      else (hm token r.body).data == sig
    | _ => false

/-- `CommonGitWebProvider.render_template` as specialised by
`GithubHandlers` (`self.name = 'Github'`): `repo_name` is injected
because the callers never pass it. -/
def render_template (template : String) (fields : List (String × J)) : Msg :=
  Msg.render template (("repo_name", J.str "Github") :: fields)

/-- `GithubHandlers.msg_pull_request` from `providers.py`.  `merged`
is read lazily inside the `and` (only when `action == 'closed'`), and
again when building the render kwargs. -/
def msg_pull_request (body : J) (repo : Option String) : Except Unit (Option Msg) := do
  let action ← jget body "action"
  let user ← jget (← jget (← jget body "pull_request") "user") "login"
  let au ←
    if action.eqStr "closed" then do
      let m ← jget (← jget body "pull_request") "merged"
      if m.truthy then do
        let u ← jget (← jget (← jget body "pull_request") "merged_by") "login"
        Except.ok (J.str "merged", u)
      else Except.ok (action, user)
    else Except.ok (action, user)
  let action2 := if au.1.eqStr "synchronize" then J.str "updated" else au.1
  let number ← jget (← jget body "pull_request") "number"
  let url ← jget (← jget body "pull_request") "html_url"
  let merged ← jget (← jget body "pull_request") "merged"
  Except.ok (some (render_template "pull_request"
    [("body", body), ("repo", optJ repo), ("action", action2), ("user", au.2),
     ("number", number), ("url", url), ("merged", merged)]))

end GithubHandlers

namespace GitLabHandlers

/-- `GitLabHandlers.map_event_type` from `providers.py`: a literal
dictionary `.get`. -/
def map_event_type (event_type : String) : Option String :=
  if event_type == "push_hook" then some "push"
  else if event_type == "issue_hook" then some "issue"
  else if event_type == "note_hook" then some "comment"
  else none

/-- `CommonGitWebProvider.render_template` as specialised by
`GitLabHandlers` (`self.name = 'GitLab'`). -/
def render_template (template : String) (fields : List (String × J)) : Msg :=
  Msg.render template (("repo_name", J.str "GitLab") :: fields)

/-- `CommonGitWebProvider.msg_generic`; for GitLab the event type has
already passed through `map_event_type`, so it can be `None`. -/
def msg_generic (body : J) (repo : Option String) (event_type : Option String) :
    Except Unit (Option Msg) :=
  Except.ok (some (render_template "generic"
    [("body", body), ("repo", optJ repo), ("event_type", optJ event_type)]))

/-- `GitLabHandlers.msg_push`.  Only list-shaped `commits` payloads are
modeled (on other shapes the Python `len`/indexing would raise or
misbehave, which no claim exercises). -/
def msg_push (body : J) (repo : Option String) : Except Unit (Option Msg) := do
  let commitsJ ← jget body "commits"
  let commits ← match commitsJ with
    | J.arr l => Except.ok l
    | _ => Except.error ()
  let lu ←
    if commits.isEmpty then do
      let u ← jget (← jget body "project") "web_url"
      Except.ok (u, ([] : List J))
    else do
      let u ← jget (commits.getLastD J.null) "url"
      let msgs ← commits.mapM (fun c => do
        let m ← jstr (← jget c "message")
        let i ← jstr (← jget c "id")
        let cu ← jget c "url"
        Except.ok (J.obj
          [("msg", J.str (String.mk ((pySplit '\n' (m.data.take 80)).headD []))),
           ("hash", J.str (String.mk (i.data.take 8))), ("url", cu)]))
      Except.ok (u, msgs)
  let user ← jget body "user_name"
  let ref ← jstr (← jget body "ref")
  let branch := String.mk (pyJoin '/' ((pySplit '/' ref.data).drop 2))
  Except.ok (some (render_template "push"
    [("body", body), ("repo", optJ repo), ("user", user),
     ("commits", J.num commits.length), ("branch", J.str branch),
     ("url", lu.1), ("commit_messages", J.arr lu.2)]))

/-- `GitLabHandlers.msg_issue`: the action-word dictionary `.get`
yields `None` for unknown actions, and the function then falls off the
end returning `None` (no message). -/
def msg_issue (body : J) (repo : Option String) : Except Unit (Option Msg) := do
  let rawAction ← jget (← jget body "object_attributes") "action"
  let action :=
    if rawAction.eqStr "reopen" then some "reopened"
    else if rawAction.eqStr "close" then some "closed"
    else if rawAction.eqStr "open" then some "opened"
    else none
  match action with
  | none => Except.ok none
  | some a => do
    let title ← jget (← jget body "object_attributes") "title"
    let user ← jget (← jget body "user") "name"
    let url ← jget (← jget body "object_attributes") "url"
    Except.ok (some (render_template "issues"
      [("body", body), ("repo", optJ repo), ("action", J.str a),
       ("title", title), ("user", user), ("url", url)]))

/-- `GitLabHandlers.msg_comment`: sub-dispatch on the lowercased
`noteable_type`; an unrecognised noteable falls off the end (`None`). -/
def msg_comment (body : J) (repo : Option String) : Except Unit (Option Msg) := do
  let noteableRaw ← jstr (← jget (← jget body "object_attributes") "noteable_type")
  let noteable := pyLower noteableRaw
  if noteable == "issue" then do
    let user ← jget (← jget body "user") "name"
    let url ← jget (← jget body "object_attributes") "url"
    let title ← jget (← jget body "issue") "title"
    Except.ok (some (render_template "issue_comment"
      [("body", body), ("repo", optJ repo), ("user", user), ("url", url),
       ("action", J.str "commented"), ("title", title)]))
  else if noteable == "commit" then do
    let user ← jget (← jget body "user") "name"
    let url ← jget (← jget body "object_attributes") "url"
    Except.ok (some (render_template "commit_comment"
      [("body", body), ("repo", optJ repo), ("user", user), ("url", url),
       ("line", J.null)]))
  else if noteable == "mergerequest" then do
    let user ← jget (← jget body "user") "name"
    let url ← jget (← jget body "object_attributes") "url"
    Except.ok (some (render_template "merge_request_comment"
      [("body", body), ("repo", optJ repo), ("user", user), ("url", url)]))
  else Except.ok none

/-- `GitLabHandlers.create_message`: map the provider event name, then
run the common `hasattr`-based dispatch of `CommonGitWebProvider` on
`'msg_' + str(mapped)`.  The class only has `msg_push`, `msg_issue`,
`msg_comment` (plus the inherited `msg_generic`); a `None` mapping
looks up the absent attribute `msg_None` and falls back to
`msg_generic(body, repo, None)`. -/
def create_message (body : J) (event_type : String) (repo : Option String) :
    Except Unit (Option Msg) :=
  match map_event_type event_type with
  | some "push" => msg_push body repo
  | some "issue" => msg_issue body repo
  | some "comment" => msg_comment body repo
  | some other => msg_generic body repo (some other)
  | none => msg_generic body repo none

end GitLabHandlers

namespace GithubHook

/-- `GITHUB_EVENTS` from `githubhook.py`. -/
def GITHUB_EVENTS : List String :=
  ["commit_comment", "create", "delete", "deployment",
   "deployment_status", "fork", "gollum", "issue_comment",
   "issues", "member", "page_build", "public",
   "pull_request_review_comment", "pull_request", "push",
   "release", "status", "team_add", "watch", "*"]

/-- `DEFAULT_EVENTS` from `githubhook.py`. -/
def DEFAULT_EVENTS : List String :=
  ["commit_comment", "issue_comment", "issues",
   "pull_request_review_comment", "pull_request", "push"]

/-- `REQUIRED_HEADERS` from `githubhook.py`. -/
def REQUIRED_HEADERS : List String := ["X-Github-Event"]

/-- `HELP_MSG` from `githubhook.py`. -/
def HELP_MSG : String :=
  "Please see the output of `!github help` for usage and configuration instructions."

/-- `EVENT_UNKNOWN.format(event)`. -/
def event_unknown_msg (e : String) : String :=
  "Unknown event " ++ e ++ ", skipping."

/-- A repository's configuration entry: its `'routes'` dict, mapping a
room to the route's event list.  The `{}` placeholder route written by
`set_route` (which carries no `'events'` key and is always immediately
overwritten by `set_events` inside `github_route`) is modeled as the
empty event list. -/
structure RepoConfig where
  routes : List (String × List String)

/-- The plugin's `self.config` dict. -/
structure Config where
  default_events : List String
  repositories : List (String × RepoConfig)

/-- `DEFAULT_CONFIG` from `githubhook.py`. -/
def DEFAULT_CONFIG : Config := ⟨DEFAULT_EVENTS, []⟩

/-- The plugin state seen by `receive`: `self.config` plus the
`self.global_route` attribute set by the `github_global` command
(`none` models Python `None`). -/
structure PluginState where
  config : Config
  global_route : Option String

/-- Python `d[k] = v` on a string-keyed dict kept as an insertion-order
association list: overwrite in place if present, append otherwise. -/
def alist_set {α : Type} (l : List (String × α)) (k : String) (v : α) :
    List (String × α) :=
  if l.any (fun p => p.1 == k) then
    l.map (fun p => if p.1 == k then (k, v) else p)
  else l ++ [(k, v)]

/-- `get_defaults`. -/
def get_defaults (cfg : Config) : List String := cfg.default_events

/-- `get_repo`; `self.config['repositories'].get(repo)`, where `repo`
may be Python `None` (matching no string key). -/
def get_repo (cfg : Config) : Option String → Option RepoConfig
  | some repo => cfg.repositories.lookup repo
  | none => none

/-- `get_routes`: the room keys of the repo's routes (`{}` fallback for
an unknown repo). -/
def get_routes (cfg : Config) (repo : Option String) : List String :=
  match get_repo cfg repo with
  | some rc => rc.routes.map (fun p => p.1)
  | none => []

/-- `get_route`. -/
def get_route (cfg : Config) (repo room : String) : Option (List String) :=
  match cfg.repositories.lookup repo with
  | some rc => rc.routes.lookup room
  | none => none

/-- `get_events`: the `'events'` list stored for the route (see the
`RepoConfig` comment for the transient `{}` stage). -/
def get_events (cfg : Config) (repo room : String) : Option (List String) :=
  get_route cfg repo room

/-- `has_route`. -/
def has_route (cfg : Config) (repo room : String) : Bool :=
  (get_route cfg repo room).isSome

/-- `set_defaults`: rebinds `self.config['default_events']`.  (The
Python code never mutates an events list in place; `github_defaults`
always builds a fresh list, so rebinding is the only effect.) -/
def set_defaults (cfg : Config) (defaults : List String) : Config :=
  { cfg with default_events := defaults }

/-- Apply `f` to the configuration of repository `repo` (helper for the
nested dict updates). -/
def update_repo (cfg : Config) (repo : String) (f : RepoConfig → RepoConfig) : Config :=
  { cfg with repositories :=
      cfg.repositories.map (fun p => if p.1 == repo then (p.1, f p.2) else p) }

/-- `set_route`: create the repository entry if missing, then write the
`{}` placeholder route for `room`. -/
def set_route (cfg : Config) (repo room : String) : Config :=
  let cfg1 :=
    if (cfg.repositories.lookup repo).isSome then cfg
    else { cfg with repositories := cfg.repositories ++ [(repo, ⟨[]⟩)] }
  update_repo cfg1 repo (fun rc => ⟨alist_set rc.routes room []⟩)

/-- `set_events`: `self.config['repositories'][repo]['routes'][room]['events'] = events`.
Within `github_route` the repo and room entries always exist (Python
would raise `KeyError` otherwise). -/
def set_events (cfg : Config) (repo room : String) (events : List String) : Config :=
  update_repo cfg repo (fun rc => ⟨alist_set rc.routes room events⟩)

/-- `'Done. Relaying messages from {0} to {1} for events: {2}'`. -/
def route_done_msg (repo room : String) (events : List String) : String :=
  "Done. Relaying messages from " ++ repo ++ " to " ++ room ++
    " for events: " ++ String.intercalate " " events

/-- The validation loop of `github_route`: iterate over a copy of the
supplied events (`events[:]`), removing each unknown one from the live
list (`events.remove(event)`, first occurrence) and yielding an
`EVENT_UNKNOWN` message for it.  Returns the filtered list and the
yielded messages. -/
def filter_events_loop : List String → List String → List String → List String × List String
  | acc, msgs, [] => (acc, msgs)
  | acc, msgs, e :: rest =>
    if GITHUB_EVENTS.contains e then filter_events_loop acc msgs rest
    else filter_events_loop (acc.erase e) (msgs ++ [event_unknown_msg e]) rest

/-- `github_route(message, args)` from `githubhook.py` (the `message`
parameter is unused by the command body).  Returns the updated config
and the yielded messages. -/
def github_route (cfg : Config) (args : List String) : Config × List String :=
  match args with
  | repo :: room :: eventArgs =>
    let cfg1 := if has_route cfg repo room then cfg else set_route cfg repo room
    if eventArgs.isEmpty then
      let events := get_defaults cfg1
      (set_events cfg1 repo room events, [route_done_msg repo room events])
    else
      let fe := filter_events_loop eventArgs [] eventArgs
      (set_events cfg1 repo room fe.1, fe.2 ++ [route_done_msg repo room fe.1])
  | _ => (cfg, [HELP_MSG])

/-- `github_global(message, args)`: one argument clears
`self.global_route` (sets it to `None`), two arguments set it to
`args[1]`. -/
def github_global (st : PluginState) (args : List String) : PluginState × List String :=
  match args with
  | [_] => ({ st with global_route := none }, ["Removed global route."])
  | [_, room] => ({ st with global_route := some room },
      ["Set global route to " ++ room ++ "."])
  | _ => (st, [HELP_MSG])

/-- `is_global_event(event_type, repo, body)`: membership of the event
type in the fixed list; `repo` and `body` are accepted but unused. -/
def is_global_event (event_type : String) (_repo : Option String) (_body : J) : Bool :=
  ["repository", "membership", "member", "team_add", "fork"].contains event_type

/-- `validate_incoming(request)`: content type must be exactly
`application/json`, all `REQUIRED_HEADERS` present, the body must parse
as JSON (`ValueError` otherwise) and decode to a dict. -/
def validate_incoming (r : Request) : Bool :=
  if r.content_type != "application/json" then false
  else if REQUIRED_HEADERS.any (fun h => (get_header r h).isNone) then false
  else match r.json with
    | none => false
    | some b => b.isObj

/-- `msg_generic(body, repo, event_type)` (static method in
`githubhook.py`, rendering `locals()`). -/
def msg_generic (body : J) (repo : Option String) (event_type : String) :
    Except Unit (Option Msg) :=
  Except.ok (some (Msg.render "generic"
    [("body", body), ("repo", optJ repo), ("event_type", J.str event_type)]))

/-- `msg_issues` from `githubhook.py`.  The local `body` is rebound to
`body['issue']['body']` before the assignee branch, so a non-null
assignee makes `body['issue']` subscript a string and raise; `body2`
names the rebound variable. -/
def msg_issues (body : J) (repo : Option String) : Except Unit (Option Msg) := do
  let action ← jget body "action"
  let number ← jget (← jget body "issue") "number"
  let title ← jget (← jget body "issue") "title"
  let user ← jget (← jget (← jget body "issue") "user") "login"
  let url ← jget (← jget body "issue") "url"
  let is_assigned ← jget (← jget body "issue") "assignee"
  let body2 ← jget (← jget body "issue") "body"
  if is_assigned.isNull then
    Except.ok (some (Msg.render "issues"
      [("body", body2), ("repo", optJ repo), ("action", action),
       ("number", number), ("title", title), ("user", user), ("url", url),
       ("is_assigned", is_assigned)]))
  else do
    let assignee ← jget (← jget (← jget body2 "issue") "assignee") "login"
    Except.ok (some (Msg.render "issues"
      [("body", body2), ("repo", optJ repo), ("action", action),
       ("number", number), ("title", title), ("user", user), ("url", url),
       ("is_assigned", is_assigned), ("assignee", assignee)]))

/-- `msg_pull_request` from `githubhook.py`.  The local `body` is
rebound to `body['pull_request']['body']` before the merged branch, so
on `action == 'closed' and merged` the read of
`body['pull_request']['merged_by']['login']` subscripts the rebound
value (`body2`); after that branch sets `action = 'merged'`, the
`'synchronize'` test can no longer fire. -/
def msg_pull_request (body : J) (repo : Option String) : Except Unit (Option Msg) := do
  let action ← jget body "action"
  let number ← jget (← jget body "pull_request") "number"
  let user ← jget (← jget (← jget body "pull_request") "user") "login"
  let url ← jget (← jget body "pull_request") "html_url"
  let merged ← jget (← jget body "pull_request") "merged"
  let body2 ← jget (← jget body "pull_request") "body"
  if action.eqStr "closed" && merged.truthy then do
    let user2 ← jget (← jget (← jget body2 "pull_request") "merged_by") "login"
    Except.ok (some (Msg.render "pull_request"
      [("body", body2), ("repo", optJ repo), ("action", J.str "merged"),
       ("number", number), ("user", user2), ("url", url), ("merged", merged)]))
  else
    let action2 := if action.eqStr "synchronize" then J.str "updated" else action
    Except.ok (some (Msg.render "pull_request"
      [("body", body2), ("repo", optJ repo), ("action", action2),
       ("number", number), ("user", user), ("url", url), ("merged", merged)]))

/-- `msg_pull_request_review_comment` from `githubhook.py`. -/
def msg_pull_request_review_comment (body : J) (repo : Option String) :
    Except Unit (Option Msg) := do
  let action ← jget body "action"
  let user ← jget (← jget (← jget body "comment") "user") "login"
  let line ← jget (← jget body "comment") "position"
  let l_url ← jget (← jget body "comment") "html_url"
  let pr ← jget (← jget body "pull_request") "number"
  let url ← jget (← jget body "pull_request") "html_url"
  let action2 := if action.eqStr "created" then J.str "commented" else action
  Except.ok (some (Msg.render "pull_request_review_comment"
    [("body", body), ("repo", optJ repo), ("action", action2), ("user", user),
     ("line", line), ("l_url", l_url), ("pr", pr), ("url", url)]))

/-- `msg_push` from `githubhook.py`.  Only list-shaped `commits` are
modeled (see the GitLab `msg_push` comment); `ref` must be a string for
`.split('/')`. -/
def msg_push (body : J) (repo : Option String) : Except Unit (Option Msg) := do
  let user ← jget (← jget body "pusher") "name"
  let commitsJ ← jget body "commits"
  let commits ← match commitsJ with
    | J.arr l => Except.ok l
    | _ => Except.error ()
  let ref ← jstr (← jget body "ref")
  let branch := String.mk ((pySplit '/' ref.data).getLastD [])
  let url ← jget body "compare"
  let messages ← (commits.take 5).mapM (fun c => jget c "message")
  Except.ok (some (Msg.render "push"
    [("body", body), ("repo", optJ repo), ("user", user),
     ("commits", J.num commits.length), ("branch", J.str branch),
     ("url", url), ("messages", J.arr messages)]))

/-- `msg_status`: always returns `None` ("no sane representation"). -/
def msg_status : Except Unit (Option Msg) := Except.ok none

/-- `msg_issue_comment` from `githubhook.py` (the local `body` is
rebound to the comment body just before rendering). -/
def msg_issue_comment (body : J) (repo : Option String) : Except Unit (Option Msg) := do
  let action ← jget body "action"
  let user ← jget (← jget (← jget body "comment") "user") "login"
  let number ← jget (← jget body "issue") "number"
  let title ← jget (← jget body "issue") "title"
  let url ← jget (← jget body "issue") "html_url"
  let action2 := if action.eqStr "created" then J.str "commented" else action
  let body2 ← jget (← jget body "comment") "body"
  Except.ok (some (Msg.render "issue_comment"
    [("body", body2), ("repo", optJ repo), ("action", action2), ("user", user),
     ("number", number), ("title", title), ("url", url)]))

/-- `msg_commit_comment` from `githubhook.py`. -/
def msg_commit_comment (body : J) (repo : Option String) : Except Unit (Option Msg) := do
  let user ← jget (← jget (← jget body "comment") "user") "login"
  let url ← jget (← jget body "comment") "html_url"
  let line ← jget (← jget body "comment") "line"
  let sha ← jget (← jget body "comment") "commit_id"
  let body2 ← jget (← jget body "comment") "body"
  Except.ok (some (Msg.render "commit_comment"
    [("body", body2), ("repo", optJ repo), ("user", user), ("url", url),
     ("line", line), ("sha", sha)]))

/-- `msg_repository` from `githubhook.py`. -/
def msg_repository (body : J) (repo : Option String) : Except Unit (Option Msg) := do
  let action ← jget body "action"
  let user ← jget (← jget body "sender") "login"
  let url ← jget (← jget body "repository") "html_url"
  Except.ok (some (Msg.render "repository"
    [("body", body), ("repo", optJ repo), ("action", action), ("user", user),
     ("url", url)]))

/-- `msg_membership` from `githubhook.py`; `'{} {}'.format` is modeled
for string actions (GitHub sends strings here). -/
def msg_membership (body : J) (repo : Option String) : Except Unit (Option Msg) := do
  let actionStr ← jstr (← jget body "action")
  let action := actionStr ++ " " ++ (if actionStr == "added" then "to" else "from")
  let user ← jget (← jget body "member") "login"
  let team ← jget (← jget body "team") "name"
  Except.ok (some (Msg.render "membership"
    [("body", body), ("repo", optJ repo), ("action", J.str action),
     ("user", user), ("team", team)]))

/-- `msg_member` from `githubhook.py`. -/
def msg_member (body : J) (repo : Option String) : Except Unit (Option Msg) := do
  let user ← jget (← jget body "member") "login"
  let url ← jget (← jget body "repository") "html_url"
  Except.ok (some (Msg.render "member"
    [("body", body), ("repo", optJ repo), ("user", user), ("url", url)]))

/-- `msg_team_add` from `githubhook.py`. -/
def msg_team_add (body : J) (repo : Option String) : Except Unit (Option Msg) := do
  let team ← jget (← jget body "team") "name"
  let url ← jget (← jget body "repository") "html_url"
  Except.ok (some (Msg.render "team_add"
    [("body", body), ("repo", optJ repo), ("team", team), ("url", url)]))

/-- `msg_fork` from `githubhook.py`. -/
def msg_fork (body : J) (repo : Option String) : Except Unit (Option Msg) := do
  let fork_name ← jget (← jget body "forkee") "full_name"
  let url ← jget (← jget body "forkee") "html_url"
  Except.ok (some (Msg.render "fork"
    [("body", body), ("repo", optJ repo), ("fork_name", fork_name), ("url", url)]))

/-- The `'msg_' + event_type` / `hasattr` dispatch in `receive`.  The
class attributes starting with `msg_` are exactly the twelve handlers
plus `msg_generic`; an event type of `generic` resolves to
`msg_generic` itself, which then receives two arguments instead of
three and raises `TypeError`. -/
def dispatch_message (event_type : String) (body : J) (repo : Option String) :
    Except Unit (Option Msg) :=
  if event_type == "issues" then msg_issues body repo
  else if event_type == "pull_request" then msg_pull_request body repo
  else if event_type == "pull_request_review_comment" then
    msg_pull_request_review_comment body repo
  else if event_type == "push" then msg_push body repo
  else if event_type == "status" then msg_status
  else if event_type == "issue_comment" then msg_issue_comment body repo
  else if event_type == "commit_comment" then msg_commit_comment body repo
  else if event_type == "repository" then msg_repository body repo
  else if event_type == "membership" then msg_membership body repo
  else if event_type == "member" then msg_member body repo
  else if event_type == "team_add" then msg_team_add body repo
  else if event_type == "fork" then msg_fork body repo
  else if event_type == "generic" then Except.error ()
  else msg_generic body repo event_type

/-- `repo = body['repository']['full_name'] if 'repository' in body else None`.
A present `repository` without a string `full_name` is modeled as a
raise (only string repository names are modeled). -/
def repo_of_body (body : J) : Except Unit (Option String) :=
  if body.hasKey "repository" then
    match (jget body "repository") >>= (fun rj => jget rj "full_name") with
    | Except.ok (J.str s) => Except.ok (some s)
    | _ => Except.error ()
  else Except.ok none

/-- The rooms selected by the delivery loop of `receive` for a given
event type: every room of the repo whose route's event list contains
the event type or the wildcard (lines 367-369). -/
def repo_rooms (cfg : Config) (event_type : String) (repo : Option String) :
    List String :=
  match get_repo cfg repo with
  | some rc =>
    (rc.routes.filter (fun p => p.2.contains event_type || p.2.contains "*")).map
      (fun p => p.1)
  | none => []

/-- The full list of `join_and_send` targets of one `receive` call, in
call order: the matching repo rooms, then — whenever the event is
global — the current `self.global_route` value, with no guard on it
being set (line 371-372). -/
def resolve_rooms (st : PluginState) (event_type : String) (repo : Option String)
    (global_event : Bool) : List (Option String) :=
  (repo_rooms st.config event_type repo).map some ++
    (if global_event then [st.global_route] else [])

/-- The condition of line 369 for a single route, used to state what an
event kind set matches. -/
def route_matches (cfg : Config) (repo room event_type : String) : Bool :=
  match get_events cfg repo room with
  | some events => events.contains event_type || events.contains "*"
  | none => false

/-- Outcome of one `receive` call: `bad_request` is `abort(400)`;
`accepted sends` is a 204 response after calling `join_and_send` on
each target in `sends` (Python `None` targets included); `raised` is an
exception escaping the handler (e.g. `KeyError` in a message builder). -/
inductive ReceiveResult where
  | bad_request
  | accepted (sends : List (Option String))
  | raised

/-- `receive` after validation: ping short-circuit (which logs
`body['hook']['url']`), repo extraction, the global-event flag, the
unknown-repo discard, message dispatch, and the delivery loop. -/
def receive_core (st : PluginState) (event_type : String) (body : J) : ReceiveResult :=
  if event_type == "ping" then
    match (jget body "hook") >>= (fun h => jget h "url") with
    | Except.ok _ => ReceiveResult.accepted []
    | Except.error _ => ReceiveResult.raised
  else
    match repo_of_body body with
    | Except.error _ => ReceiveResult.raised
    | Except.ok repo =>
      let global_event := is_global_event event_type repo body
      if (get_repo st.config repo).isNone && !global_event then
        ReceiveResult.accepted []
      else
        match dispatch_message event_type body repo with
        | Except.error _ => ReceiveResult.raised
        | Except.ok none => ReceiveResult.accepted []
        | Except.ok (some _) =>
          ReceiveResult.accepted (resolve_rooms st event_type repo global_event)

/-- `receive(request)` from `githubhook.py`: `abort(400)` unless
`validate_incoming` accepts, then lowercase the `X-Github-Event` header
and process the JSON body.  (After validation the header and body are
necessarily present; the fallback arm is unreachable.) -/
def receive (st : PluginState) (r : Request) : ReceiveResult :=
  if validate_incoming r then
    match get_header r "X-Github-Event", r.json with
    | some et, some body => receive_core st (pyLower et) body
    | _, _ => ReceiveResult.bad_request
  else ReceiveResult.bad_request

/-- The event type `receive` would process for a request (lowercased
`X-Github-Event`). -/
def event_type_of (r : Request) : String :=
  match get_header r "X-Github-Event" with
  | some s => pyLower s
  | none => ""

/-- The two kinds of exception a transport call can raise:
`errbot.backends.base.RoomError` (the only class caught by
`join_and_send`) or anything else. -/
inductive TransportErr where
  | room_error
  | other_error
deriving DecidableEq

/-- The external chat transport: what `room.join` and `self.send`
raise, if anything, per target room. -/
structure Transport where
  join_result : Option String → Option TransportErr
  send_result : Option String → Option TransportErr

/-- `join_and_send(room_name, message)`: the `try` block catches only
`RoomError` from `join` (logging it); `self.send` is outside the `try`,
so any send failure — and any non-`RoomError` join failure —
propagates. -/
def join_and_send (tr : Transport) (room_name : Option String) : Except TransportErr Unit :=
  match tr.join_result room_name with
  | some TransportErr.other_error => Except.error TransportErr.other_error
  | _ =>
    match tr.send_result room_name with
    | some e => Except.error e
    | none => Except.ok ()

/-- The delivery loop of `receive` over the resolved targets: each
`join_and_send` in order, stopping at the first uncaught exception.
Returns the targets actually delivered to and the escaping error, if
any. -/
def deliver_all (tr : Transport) : List (Option String) → List (Option String) × Option TransportErr
  | [] => ([], none)
  | room :: rest =>
    match join_and_send tr room with
    | Except.error e => ([], some e)
    | Except.ok _ =>
      let res := deliver_all tr rest
      (room :: res.1, res.2)

end GithubHook

/-! ## Concrete payloads and states used by the claim theorems -/

/-- A well-formed `pull_request` payload for a pull request closed by
merging (`action == 'closed'`, `merged == true`, `merged_by` present). -/
def pr_merged_body : J :=
  J.obj [("action", J.str "closed"),
    ("pull_request", J.obj
      [("number", J.num 7),
       ("user", J.obj [("login", J.str "bob")]),
       ("html_url", J.str "https://example.test/pr/7"),
       ("merged", J.bool true),
       ("body", J.str "description"),
       ("merged_by", J.obj [("login", J.str "carol")])])]

/-- The issue object of a well-formed `issues` payload whose assignee
is non-null. -/
def c10_issue : J :=
  J.obj [("number", J.num 3), ("title", J.str "T"),
         ("user", J.obj [("login", J.str "alice")]),
         ("url", J.str "https://example.test/i/3"),
         ("assignee", J.obj [("login", J.str "bob")]),
         ("body", J.str "text")]

/-- A well-formed `issues` payload with a non-null assignee. -/
def c10_body : J := J.obj [("action", J.str "opened"), ("issue", c10_issue)]

/-- A minimal GitLab payload (its content is irrelevant to the generic
fallback). -/
def c5_body : J := J.obj [("project", J.obj [("name", J.str "widgets")])]

/-- A transport where sending to `#alpha` raises a `RoomError` and
everything else succeeds. -/
def c7_transport : GithubHook.Transport :=
  ⟨fun _ => none,
   fun rm => if rm == some "#alpha" then some GithubHook.TransportErr.room_error else none⟩

/-- A transport where every join raises a `RoomError` (which
`join_and_send` catches) and every send succeeds. -/
def c7_join_fail_transport : GithubHook.Transport :=
  ⟨fun _ => some GithubHook.TransportErr.room_error, fun _ => none⟩

/-- A well-formed `member` (global) event payload. -/
def member_body : J :=
  J.obj [("repository", J.obj [("full_name", J.str "octo/widgets"),
                               ("html_url", J.str "https://example.test/r")]),
         ("member", J.obj [("login", J.str "alice")])]

/-- A valid `member` webhook request (no signature header, which
`receive` never looks for). -/
def member_req : Request :=
  ⟨"application/json", [("X-Github-Event", "member")], "rawmember", some member_body⟩

/-- State where repo `octo/widgets` routes `member` events to `#ops`
and the global route is also `#ops`. -/
def c2_state : GithubHook.PluginState :=
  ⟨⟨GithubHook.DEFAULT_EVENTS, [("octo/widgets", ⟨[("#ops", ["member"])]⟩)]⟩, some "#ops"⟩

/-- State with no configured repositories and no global route
(`self.global_route = None` after `!github global remove`). -/
def c6_state : GithubHook.PluginState := ⟨⟨GithubHook.DEFAULT_EVENTS, []⟩, none⟩

/-- A well-formed `push` payload. -/
def push_body : J :=
  J.obj [("repository", J.obj [("full_name", J.str "octo/widgets")]),
         ("pusher", J.obj [("name", J.str "alice")]),
         ("commits", J.arr []),
         ("ref", J.str "refs/heads/main"),
         ("compare", J.str "https://example.test/compare")]

/-- A push request passing `validate_incoming` but carrying no
`X-Hub-Signature` header at all. -/
def push_req_unsigned : Request :=
  ⟨"application/json", [("X-Github-Event", "push")], "rawpush", some push_body⟩

/-- State routing `octo/widgets` pushes to `#dev`. -/
def c1_state : GithubHook.PluginState :=
  ⟨⟨GithubHook.DEFAULT_EVENTS, [("octo/widgets", ⟨[("#dev", ["push"])]⟩)]⟩, none⟩

/-- A concrete (non-cryptographic) stand-in for the HMAC primitive,
used to witness `C3_valid_message_spec`. -/
def c3_hm : String → String → String := fun t m => t ++ m

/-- A request carrying a signature valid for body `"ab"` and token `"k"`
under `c3_hm`. -/
def c3_req : Request :=
  ⟨"application/json", [("X-Hub-Signature", "sha1=kab")], "ab", none⟩

/-- The same request with a mutated body. -/
def c3_req_mut : Request :=
  ⟨"application/json", [("X-Hub-Signature", "sha1=kab")], "ax", none⟩

/-! ## Claim C3 — signature validation -/

/-- Auxiliary characterisation of `valid_message`: it accepts exactly
when the `X-Hub-Signature` header is present and splits on `'='` into
exactly the algorithm `sha1` and the hex HMAC of the raw body under the
token. -/
theorem valid_message_iff (hm : String → String → String) (r : Request) (t : String) :
    GithubHandlers.valid_message hm r t = true ↔
      ∃ s, get_header r "X-Hub-Signature" = some s ∧
        pySplit '=' s.data = ["sha1".data, (hm t r.body).data] := by
  unfold GithubHandlers.valid_message
  cases hh : get_header r "X-Hub-Signature" with
  | none => simp
  | some sg =>
    cases hsp : pySplit '=' sg.data with
    | nil => simp [hsp]
    | cons a l1 =>
      cases l1 with
      | nil => simp [hsp]
      | cons b l2 =>
        cases l2 with
        | nil =>
          by_cases ha : a = "sha1".data
          · subst ha
            simp only [hsp, ne_eq, not_true_eq_false, if_false, beq_iff_eq,
              Option.some.injEq, List.cons.injEq, and_true, true_and,
              exists_eq_left']
            exact eq_comm
          · simp [hsp, ha]
        | cons c l3 => simp [hsp]

/-- C3: `GithubHandlers.valid_message(request, token)` returns true
exactly when the `X-Hub-Signature` header is present, parses as
`algorithm=hexdigest` with algorithm `sha1`, and the hexdigest equals
the HMAC-SHA1 of the raw request body keyed by the token (`hm` being
the library HMAC primitive); it fails closed on missing header,
unparseable header, unsupported algorithm, or mismatch, and acceptance
flips to rejection under any mutation of the body or the secret that
changes the HMAC value (as any single-byte mutation of either does for
SHA1). -/
theorem C3_valid_message_spec (hm : String → String → String) (r : Request) (t : String) :
    (GithubHandlers.valid_message hm r t = true ↔
      ∃ s, get_header r "X-Hub-Signature" = some s ∧
        pySplit '=' s.data = ["sha1".data, (hm t r.body).data]) ∧
    (∀ r' : Request,
      get_header r' "X-Hub-Signature" = get_header r "X-Hub-Signature" →
      hm t r'.body ≠ hm t r.body →
      GithubHandlers.valid_message hm r t = true →
      GithubHandlers.valid_message hm r' t = false) ∧
    (∀ t' : String, hm t' r.body ≠ hm t r.body →
      GithubHandlers.valid_message hm r t = true →
      GithubHandlers.valid_message hm r t' = false) := by
  refine ⟨valid_message_iff hm r t, ?_, ?_⟩
  · intro r' hhd hneq hvalid
    rcases (valid_message_iff hm r t).mp hvalid with ⟨s, hs, hsp⟩
    rcases Bool.eq_false_or_eq_true (GithubHandlers.valid_message hm r' t) with h | h
    swap
    · exact h
    · exfalso
      rcases (valid_message_iff hm r' t).mp h with ⟨s', hs', hsp'⟩
      rw [hhd, hs] at hs'
      cases hs'
      rw [hsp] at hsp'
      have : (hm t r.body).data = (hm t r'.body).data := by
        simpa using hsp'
      exact hneq (String.ext this.symm)
  · intro t' hneq hvalid
    rcases (valid_message_iff hm r t).mp hvalid with ⟨s, hs, hsp⟩
    rcases Bool.eq_false_or_eq_true (GithubHandlers.valid_message hm r t') with h | h
    swap
    · exact h
    · exfalso
      rcases (valid_message_iff hm r t').mp h with ⟨s', hs', hsp'⟩
      rw [hs] at hs'
      cases hs'
      rw [hsp] at hsp'
      have : (hm t r.body).data = (hm t' r.body).data := by
        simpa using hsp'
      exact hneq (String.ext this.symm)

theorem C3_valid_message_spec_witness :
    GithubHandlers.valid_message c3_hm c3_req "k" = true ∧
    GithubHandlers.valid_message c3_hm c3_req_mut "k" = false ∧
    GithubHandlers.valid_message c3_hm c3_req "q" = false := by
  refine ⟨by decide, ?_, ?_⟩
  · exact (C3_valid_message_spec c3_hm c3_req "k").2.1 c3_req_mut rfl (by decide) (by decide)
  · exact (C3_valid_message_spec c3_hm c3_req "k").2.2 "q" (by decide) (by decide)

/-! ## Claim C4 — pull_request extraction -/

/-- C4: on a well-formed `pull_request` payload for a merged close,
the plugin's own `msg_pull_request` (in `githubhook.py`) raises — the
local `body` was rebound to the pull request's body string before
`body['pull_request']['merged_by']['login']` is read — while the
`providers.py` implementation of the very same extraction applies the
documented special rules (`user ← merged_by.login`,
`action ← 'merged'`) and renders. -/
theorem C4_merged_pull_request_eval :
    GithubHook.msg_pull_request pr_merged_body (some "octo/widgets") = Except.error () ∧
    GithubHandlers.msg_pull_request pr_merged_body (some "octo/widgets") =
      Except.ok (some (Msg.render "pull_request"
        [("repo_name", J.str "Github"),
         ("body", pr_merged_body), ("repo", J.str "octo/widgets"),
         ("action", J.str "merged"), ("user", J.str "carol"),
         ("number", J.num 7), ("url", J.str "https://example.test/pr/7"),
         ("merged", J.bool true)])) := ⟨rfl, rfl⟩

/-! ## Claim C10 — msg_issues rebinding bug -/

/-- Reduction of an `Except` bind on an `ok` value (helper for
unfolding the message builders). -/
theorem ebind_ok {α β γ : Type} (a : α) (f : α → Except γ β) :
    (Except.ok a >>= f) = f a := rfl

/-- Reduction of an `Except` bind on an `error` value. -/
theorem ebind_err {α β γ : Type} (e : γ) (f : α → Except γ β) :
    ((Except.error e : Except γ α) >>= f) = Except.error e := rfl

/-- C10: for every well-formed GitHub `issues` payload, `msg_issues`
raises when the issue's assignee is non-null (the local `body` has been
rebound to the issue body string before `body['issue']['assignee']` is
read) and renders a message only when the assignee is null. -/
theorem C10_issues_assignee (body issue userv assignee : J)
    (repo : Option String) (bstr : String)
    (haction : (body.get "action").isSome)
    (hissue : body.get "issue" = some issue)
    (hnum : (issue.get "number").isSome)
    (htitle : (issue.get "title").isSome)
    (huser : issue.get "user" = some userv)
    (hlogin : (userv.get "login").isSome)
    (hurl : (issue.get "url").isSome)
    (hassign : issue.get "assignee" = some assignee)
    (hbody : issue.get "body" = some (J.str bstr)) :
    (assignee.isNull = false → GithubHook.msg_issues body repo = Except.error ()) ∧
    (assignee.isNull = true →
      ∃ m, GithubHook.msg_issues body repo = Except.ok (some m)) := by
  obtain ⟨a, ha⟩ := Option.isSome_iff_exists.mp haction
  obtain ⟨n, hn⟩ := Option.isSome_iff_exists.mp hnum
  obtain ⟨t, ht⟩ := Option.isSome_iff_exists.mp htitle
  obtain ⟨lg, hlg⟩ := Option.isSome_iff_exists.mp hlogin
  obtain ⟨u, hu⟩ := Option.isSome_iff_exists.mp hurl
  have ja : jget body "action" = Except.ok a := by simp [jget, ha]
  have ji : jget body "issue" = Except.ok issue := by simp [jget, hissue]
  have jn : jget issue "number" = Except.ok n := by simp [jget, hn]
  have jt : jget issue "title" = Except.ok t := by simp [jget, ht]
  have ju : jget issue "user" = Except.ok userv := by simp [jget, huser]
  have jl : jget userv "login" = Except.ok lg := by simp [jget, hlg]
  have jur : jget issue "url" = Except.ok u := by simp [jget, hu]
  have jas : jget issue "assignee" = Except.ok assignee := by simp [jget, hassign]
  have jb : jget issue "body" = Except.ok (J.str bstr) := by simp [jget, hbody]
  have jerr : jget (J.str bstr) "issue" = Except.error () := by simp [jget, J.get]
  constructor
  · intro hnn
    simp only [GithubHook.msg_issues, ja, ji, jn, jt, ju, jl, jur, jas, jb, jerr,
      ebind_ok, ebind_err, hnn, Bool.false_eq_true, if_false]
  · intro hnull
    have heq : GithubHook.msg_issues body repo = Except.ok (some (Msg.render "issues"
        [("body", J.str bstr), ("repo", optJ repo), ("action", a), ("number", n),
         ("title", t), ("user", lg), ("url", u), ("is_assigned", assignee)])) := by
      simp only [GithubHook.msg_issues, ja, ji, jn, jt, ju, jl, jur, jas, jb,
        ebind_ok, hnull, if_true]
    exact ⟨_, heq⟩

theorem C10_issues_assignee_witness :
    (J.obj [("login", J.str "bob")]).isNull = false ∧
    GithubHook.msg_issues c10_body none = Except.error () :=
  ⟨rfl,
    (C10_issues_assignee c10_body c10_issue (J.obj [("login", J.str "alice")])
      (J.obj [("login", J.str "bob")]) none "text"
      rfl rfl rfl rfl rfl rfl rfl rfl rfl).1 rfl⟩

/-! ## Claim C5 — GitLab event type mapping -/

/-- C5 counterexample: `tag_push_hook` is unmapped, yet `create_message`
does produce a message — the generic fallback (`msg_None` is not an
attribute, so `msg_generic` renders with a `None` event type). -/
theorem C5_counterexample :
    GitLabHandlers.map_event_type "tag_push_hook" = none ∧
    GitLabHandlers.create_message c5_body "tag_push_hook" (some "widgets") =
      Except.ok (some (Msg.render "generic"
        [("repo_name", J.str "GitLab"), ("body", c5_body),
         ("repo", J.str "widgets"), ("event_type", J.null)])) := ⟨rfl, rfl⟩

/-- C5 (amended): `map_event_type` maps `push_hook ↦ push`,
`issue_hook ↦ issue`, `note_hook ↦ comment`; every other GitLab event
name maps to null, and message creation for such an event falls back to
the generic renderer, producing a generic message with a null event
type (not "no message"). -/
theorem C5_map_event_type (et : String)
    (h1 : et ≠ "push_hook") (h2 : et ≠ "issue_hook") (h3 : et ≠ "note_hook") :
    GitLabHandlers.map_event_type "push_hook" = some "push" ∧
    GitLabHandlers.map_event_type "issue_hook" = some "issue" ∧
    GitLabHandlers.map_event_type "note_hook" = some "comment" ∧
    GitLabHandlers.map_event_type et = none ∧
    ∀ (body : J) (repo : Option String),
      GitLabHandlers.create_message body et repo =
        Except.ok (some (Msg.render "generic"
          [("repo_name", J.str "GitLab"), ("body", body), ("repo", optJ repo),
           ("event_type", J.null)])) := by
  have hm : GitLabHandlers.map_event_type et = none := by
    simp [GitLabHandlers.map_event_type, h1, h2, h3]
  refine ⟨rfl, rfl, rfl, hm, ?_⟩
  intro body repo
  simp [GitLabHandlers.create_message, hm, GitLabHandlers.msg_generic,
    GitLabHandlers.render_template, optJ]

theorem C5_map_event_type_witness :
    ("tag_push_hook" : String) ≠ "push_hook" ∧
    GitLabHandlers.map_event_type "tag_push_hook" = none ∧
    GitLabHandlers.create_message J.null "tag_push_hook" none =
      Except.ok (some (Msg.render "generic"
        [("repo_name", J.str "GitLab"), ("body", J.null), ("repo", J.null),
         ("event_type", J.null)])) := by
  have h := C5_map_event_type "tag_push_hook" (by decide) (by decide) (by decide)
  exact ⟨by decide, h.2.2.2.1, h.2.2.2.2 J.null none⟩

/-! ## Claim C7 — per-room delivery failures -/

/-- C7 counterexample: a send failure on the first room (`#alpha`)
aborts the whole delivery loop — nothing is delivered and the error
escapes — although delivering to `#beta` alone succeeds. -/
theorem C7_counterexample :
    GithubHook.deliver_all c7_transport [some "#alpha", some "#beta"] =
      ([], some GithubHook.TransportErr.room_error) ∧
    GithubHook.deliver_all c7_transport [some "#beta"] =
      ([some "#beta"], none) := ⟨rfl, rfl⟩

/-- C7 (amended): only `RoomError`s raised by `room.join` are caught
and logged; as long as no send fails and no join raises anything other
than a `RoomError`, every resolved room is delivered to and the request
completes, join failures notwithstanding.  (A send failure — of any
class — or a non-`RoomError` join failure propagates and aborts the
remaining rooms, as the counterexample shows.) -/
theorem C7_join_failures_tolerated (tr : GithubHook.Transport)
    (rooms : List (Option String))
    (h : ∀ rm ∈ rooms, tr.send_result rm = none ∧
      tr.join_result rm ≠ some GithubHook.TransportErr.other_error) :
    GithubHook.deliver_all tr rooms = (rooms, none) := by
  induction rooms with
  | nil => rfl
  | cons room rest ih =>
    have hr := h room (List.mem_cons_self room rest)
    have hjs : GithubHook.join_and_send tr room = Except.ok () := by
      unfold GithubHook.join_and_send
      cases hj : tr.join_result room with
      | none => simp [hr.1]
      | some e =>
        cases e with
        | room_error => simp [hr.1]
        | other_error => exact absurd hj hr.2
    unfold GithubHook.deliver_all
    rw [hjs, ih (fun rm hm => h rm (List.mem_cons_of_mem room hm))]

theorem C7_join_failures_tolerated_witness :
    c7_join_fail_transport.join_result (some "#a") =
      some GithubHook.TransportErr.room_error ∧
    GithubHook.deliver_all c7_join_fail_transport [some "#a", some "#b"] =
      ([some "#a", some "#b"], none) :=
  ⟨rfl, C7_join_failures_tolerated c7_join_fail_transport [some "#a", some "#b"]
    (by decide)⟩

/-! ## Claims C8 and C9 — routing-table commands -/

/-- After `d[k] = v`, looking up `k` finds `v` (case where `k` was
already a key and the entry is overwritten in place). -/
theorem lookup_map_overwrite {α : Type} (l : List (String × α)) (k : String) (v : α)
    (hany : l.any (fun p => p.1 == k) = true) :
    (l.map (fun p => if p.1 == k then (k, v) else p)).lookup k = some v := by
  induction l with
  | nil => simp at hany
  | cons p rest ih =>
    rw [List.map_cons]
    by_cases hp : p.1 = k
    · rw [if_pos (by simpa using hp)]
      simp [List.lookup]
    · rw [if_neg (by simpa using hp)]
      have hbf : (p.1 == k) = false := by simpa using hp
      have hb2 : (k == p.1) = false := by simpa using Ne.symm hp
      have hrest : rest.any (fun q => q.1 == k) = true := by
        simp only [List.any_cons, hbf, Bool.false_or] at hany
        exact hany
      simp only [List.lookup, hb2]
      exact ih hrest

/-- After appending a fresh `(k, v)` entry, looking up `k` finds the
old value if present, else `v`. -/
theorem lookup_append_fresh {α : Type} (l : List (String × α)) (k : String) (v : α) :
    (l ++ [(k, v)]).lookup k =
      match l.lookup k with
      | some w => some w
      | none => some v := by
  induction l with
  | nil => simp [List.lookup]
  | cons p rest ih =>
    by_cases hp : k = p.1
    · have hb : (k == p.1) = true := by simpa using hp
      simp only [List.cons_append, List.lookup, hb]
    · have hb : (k == p.1) = false := by simpa using hp
      simp only [List.cons_append, List.lookup, hb]
      exact ih

/-- A key that no entry carries looks up to `none`. -/
theorem lookup_none_of_any_false {α : Type} (l : List (String × α)) (k : String)
    (h : l.any (fun p => p.1 == k) = false) : l.lookup k = none := by
  induction l with
  | nil => rfl
  | cons p rest ih =>
    simp only [List.any_cons, Bool.or_eq_false_iff] at h
    have hb : (k == p.1) = false := by
      have hne : ¬ p.1 = k := by simpa using h.1
      simpa using Ne.symm hne
    simp only [List.lookup, hb]
    exact ih h.2

/-- `alist_set` always makes the key map to the written value. -/
theorem lookup_alist_set_self {α : Type} (l : List (String × α)) (k : String) (v : α) :
    (GithubHook.alist_set l k v).lookup k = some v := by
  unfold GithubHook.alist_set
  cases hany : l.any (fun p => p.1 == k) with
  | true =>
    rw [if_pos rfl]
    exact lookup_map_overwrite l k v hany
  | false =>
    rw [if_neg (by simp [hany])]
    rw [lookup_append_fresh, lookup_none_of_any_false l k hany]

/-- Updating the entry of `k` with `f` turns its lookup into a map. -/
theorem lookup_map_update {α : Type} (l : List (String × α)) (k : String) (f : α → α) :
    (l.map (fun p => if p.1 == k then (p.1, f p.2) else p)).lookup k =
      (l.lookup k).map f := by
  induction l with
  | nil => rfl
  | cons p rest ih =>
    rw [List.map_cons]
    by_cases hp : p.1 = k
    · rw [if_pos (by simpa using hp)]
      have hkk : (k == p.1) = true := by simpa using hp.symm
      simp [List.lookup, hkk]
    · rw [if_neg (by simpa using hp)]
      have hb2 : (k == p.1) = false := by simpa using Ne.symm hp
      simp only [List.lookup, hb2]
      exact ih

/-- Looking up the updated repository after `update_repo`. -/
theorem lookup_update_repo_self (cfg : GithubHook.Config) (repo : String)
    (f : GithubHook.RepoConfig → GithubHook.RepoConfig) :
    (GithubHook.update_repo cfg repo f).repositories.lookup repo =
      (cfg.repositories.lookup repo).map f := by
  unfold GithubHook.update_repo
  exact lookup_map_update cfg.repositories repo f

/-- `set_route` does not touch the default event set. -/
theorem get_defaults_set_route (cfg : GithubHook.Config) (repo room : String) :
    GithubHook.get_defaults (GithubHook.set_route cfg repo room) =
      GithubHook.get_defaults cfg := by
  unfold GithubHook.get_defaults GithubHook.set_route GithubHook.update_repo
  split <;> rfl

/-- After `set_route`, the repository entry exists. -/
theorem set_route_lookup_isSome (cfg : GithubHook.Config) (repo room : String) :
    ((GithubHook.set_route cfg repo room).repositories.lookup repo).isSome = true := by
  unfold GithubHook.set_route
  cases hl : cfg.repositories.lookup repo with
  | some rc =>
    rw [if_pos (by simp [hl])]
    rw [lookup_update_repo_self, hl]
    rfl
  | none =>
    rw [if_neg (by simp [hl])]
    rw [lookup_update_repo_self]
    have : (cfg.repositories ++ [(repo, (⟨[]⟩ : GithubHook.RepoConfig))]).lookup repo =
        some ⟨[]⟩ := by
      rw [lookup_append_fresh, hl]
    rw [this]
    rfl

/-- After `set_events` on an existing repository, the route stores
exactly the written event list. -/
theorem get_events_set_events (cfg : GithubHook.Config) (repo room : String)
    (events : List String) (h : (cfg.repositories.lookup repo).isSome = true) :
    GithubHook.get_events (GithubHook.set_events cfg repo room events) repo room =
      some events := by
  obtain ⟨rc, hrc⟩ := Option.isSome_iff_exists.mp h
  unfold GithubHook.get_events GithubHook.get_route GithubHook.set_events
  rw [lookup_update_repo_self, hrc]
  simp only [Option.map_some']
  exact lookup_alist_set_self rc.routes room events

/-- C8: a route created without an explicit event list stores the
Default Event Set as it was at creation time, and a later
`set_defaults` call leaves that stored kind set unchanged. -/
theorem C8_default_snapshot (cfg : GithubHook.Config) (repo room : String)
    (d : List String) :
    GithubHook.get_events (GithubHook.github_route cfg [repo, room]).1 repo room =
      some (GithubHook.get_defaults cfg) ∧
    GithubHook.get_events
        (GithubHook.set_defaults (GithubHook.github_route cfg [repo, room]).1 d)
        repo room =
      GithubHook.get_events (GithubHook.github_route cfg [repo, room]).1 repo room := by
  have hfst : (GithubHook.github_route cfg [repo, room]).1 =
      GithubHook.set_events
        (if GithubHook.has_route cfg repo room then cfg
         else GithubHook.set_route cfg repo room) repo room
        (GithubHook.get_defaults
          (if GithubHook.has_route cfg repo room then cfg
           else GithubHook.set_route cfg repo room)) := rfl
  constructor
  · rw [hfst]
    by_cases hr : GithubHook.has_route cfg repo room = true
    · rw [if_pos hr]
      have hsome : (cfg.repositories.lookup repo).isSome = true := by
        unfold GithubHook.has_route GithubHook.get_route at hr
        cases hl : cfg.repositories.lookup repo with
        | some rc => rfl
        | none => rw [hl] at hr; simp at hr
      exact get_events_set_events cfg repo room _ hsome
    · rw [if_neg hr]
      rw [get_events_set_events _ repo room _ (set_route_lookup_isSome cfg repo room)]
      rw [get_defaults_set_route]
  · rfl

/-- The `github_route` validation loop on a list of all-unknown event
kinds empties the list and reports each kind. -/
theorem filter_events_loop_all_unknown (copy : List String) :
    ∀ msgs : List String,
      (∀ e ∈ copy, GithubHook.GITHUB_EVENTS.contains e = false) →
      GithubHook.filter_events_loop copy msgs copy =
        ([], msgs ++ copy.map GithubHook.event_unknown_msg) := by
  induction copy with
  | nil => intro msgs _; simp [GithubHook.filter_events_loop]
  | cons e rest ih =>
    intro msgs h
    have he : GithubHook.GITHUB_EVENTS.contains e = false :=
      h e (List.mem_cons_self e rest)
    unfold GithubHook.filter_events_loop
    rw [if_neg (by simpa using he)]
    rw [List.erase_cons_head]
    rw [ih (msgs ++ [GithubHook.event_unknown_msg e])
        (fun x hx => h x (List.mem_cons_of_mem e hx))]
    simp

/-- C9: a `github_route` call whose supplied kinds are all unknown
reports each kind individually, still creates the route, stores the
empty kind set, and the route then matches no event. -/
theorem C9_all_unknown_kinds (cfg : GithubHook.Config) (repo room : String)
    (events : List String) (hne : events ≠ [])
    (hunk : ∀ e ∈ events, GithubHook.GITHUB_EVENTS.contains e = false) :
    GithubHook.get_events (GithubHook.github_route cfg (repo :: room :: events)).1
      repo room = some [] ∧
    (∀ e ∈ events, GithubHook.event_unknown_msg e ∈
      (GithubHook.github_route cfg (repo :: room :: events)).2) ∧
    (∀ et : String,
      GithubHook.route_matches (GithubHook.github_route cfg (repo :: room :: events)).1
        repo room et = false) := by
  have hie : events.isEmpty = false := by
    cases events with
    | nil => exact absurd rfl hne
    | cons a l => rfl
  have hloop := filter_events_loop_all_unknown events [] hunk
  have hroute : GithubHook.github_route cfg (repo :: room :: events) =
      (GithubHook.set_events
        (if GithubHook.has_route cfg repo room then cfg
         else GithubHook.set_route cfg repo room) repo room [],
       events.map GithubHook.event_unknown_msg ++
         [GithubHook.route_done_msg repo room []]) := by
    simp only [GithubHook.github_route, hie, Bool.false_eq_true, if_false, hloop,
      List.nil_append]
  have hsome : (((if GithubHook.has_route cfg repo room then cfg
      else GithubHook.set_route cfg repo room)).repositories.lookup repo).isSome = true := by
    by_cases hr : GithubHook.has_route cfg repo room = true
    · rw [if_pos hr]
      unfold GithubHook.has_route GithubHook.get_route at hr
      cases hl : cfg.repositories.lookup repo with
      | some rc => rfl
      | none => rw [hl] at hr; simp at hr
    · rw [if_neg hr]
      exact set_route_lookup_isSome cfg repo room
  have hev : GithubHook.get_events
      (GithubHook.github_route cfg (repo :: room :: events)).1 repo room = some [] := by
    rw [hroute]
    exact get_events_set_events _ repo room [] hsome
  refine ⟨hev, ?_, ?_⟩
  · intro e he
    rw [hroute]
    exact List.mem_append_left _ (List.mem_map_of_mem GithubHook.event_unknown_msg he)
  · intro et
    unfold GithubHook.route_matches
    rw [hev]
    rfl

theorem C9_all_unknown_kinds_witness :
    (["bogus"] : List String) ≠ [] ∧
    GithubHook.get_events
      (GithubHook.github_route GithubHook.DEFAULT_CONFIG
        ["octo/widgets", "#dev", "bogus"]).1 "octo/widgets" "#dev" = some [] ∧
    GithubHook.event_unknown_msg "bogus" ∈
      (GithubHook.github_route GithubHook.DEFAULT_CONFIG
        ["octo/widgets", "#dev", "bogus"]).2 ∧
    GithubHook.route_matches
      (GithubHook.github_route GithubHook.DEFAULT_CONFIG
        ["octo/widgets", "#dev", "bogus"]).1 "octo/widgets" "#dev" "push" = false := by
  have h := C9_all_unknown_kinds GithubHook.DEFAULT_CONFIG "octo/widgets" "#dev"
    ["bogus"] (by decide) (by decide)
  exact ⟨by decide, h.1, h.2.1 "bogus" (List.mem_singleton.mpr rfl), h.2.2 "push"⟩

/-! ## Claims C1, C2, C6 — boundary validation and dispatch -/

/-- A request passing `validate_incoming` has the event header and a
parsed JSON object body. -/
theorem validate_incoming_inv (r : Request)
    (h : GithubHook.validate_incoming r = true) :
    (∃ et, get_header r "X-Github-Event" = some et) ∧
    (∃ b, r.json = some b ∧ b.isObj = true) := by
  unfold GithubHook.validate_incoming at h
  by_cases hc : r.content_type != "application/json"
  · rw [if_pos hc] at h
    exact absurd h (by simp)
  · rw [if_neg hc] at h
    by_cases hh : GithubHook.REQUIRED_HEADERS.any (fun hd => (get_header r hd).isNone)
    · rw [if_pos hh] at h
      exact absurd h (by simp)
    · rw [if_neg hh] at h
      constructor
      · have hsome : (get_header r "X-Github-Event").isNone = false := by
          by_contra hx
          exact hh (by simpa [GithubHook.REQUIRED_HEADERS] using
            (Bool.of_not_eq_false hx))
        cases he : get_header r "X-Github-Event" with
        | none => rw [he] at hsome; simp at hsome
        | some et => exact ⟨et, rfl⟩
      · cases hj : r.json with
        | none => rw [hj] at h; simp at h
        | some b => rw [hj] at h; exact ⟨b, rfl, h⟩

/-- `receive_core` never produces a 400: validation is finished before
it runs. -/
theorem receive_core_ne_bad_request (st : GithubHook.PluginState) (et : String)
    (b : J) :
    GithubHook.receive_core st et b ≠ GithubHook.ReceiveResult.bad_request := by
  intro h
  unfold GithubHook.receive_core at h
  by_cases hp : (et == "ping") = true
  · rw [if_pos hp] at h
    cases harm : (jget b "hook") >>= (fun hk => jget hk "url") with
    | ok u => rw [harm] at h; simp at h
    | error e => rw [harm] at h; simp at h
  · rw [if_neg hp] at h
    cases hrb : GithubHook.repo_of_body b with
    | error e => rw [hrb] at h; simp at h
    | ok repo =>
      rw [hrb] at h
      dsimp only at h
      by_cases hu : ((GithubHook.get_repo st.config repo).isNone &&
          !GithubHook.is_global_event et repo b) = true
      · rw [if_pos hu] at h; simp at h
      · rw [if_neg hu] at h
        cases hd : GithubHook.dispatch_message et b repo with
        | error e => rw [hd] at h; simp at h
        | ok m =>
          rw [hd] at h
          cases m with
          | none => simp at h
          | some msg => simp at h

/-- C1 (amended): `receive` answers 400 exactly when `validate_incoming`
rejects the request — content type, required `X-Github-Event` header,
JSON-object body.  No signature check takes part in the boundary
decision (`valid_message` is never called on this path), so a payload
with a missing or invalid signature passes whenever those checks do. -/
theorem C1_boundary_validation (st : GithubHook.PluginState) (r : Request) :
    GithubHook.receive st r = GithubHook.ReceiveResult.bad_request ↔
      GithubHook.validate_incoming r = false := by
  constructor
  · intro h
    cases hv : GithubHook.validate_incoming r with
    | false => rfl
    | true =>
      exfalso
      obtain ⟨⟨et, het⟩, ⟨b, hb, _⟩⟩ := validate_incoming_inv r hv
      unfold GithubHook.receive at h
      rw [if_pos hv, het, hb] at h
      exact receive_core_ne_bad_request st (pyLower et) b h
  · intro h
    unfold GithubHook.receive
    rw [if_neg (by simp [h])]

/-- C1 counterexample: a push request with no `X-Hub-Signature` header
at all — rejected by `valid_message` under every HMAC function and
token, here a concrete one — sails through the boundary and is
delivered to `#dev`. -/
theorem C1_counterexample :
    GithubHandlers.valid_message c3_hm push_req_unsigned "secret" = false ∧
    GithubHook.receive c1_state push_req_unsigned =
      GithubHook.ReceiveResult.accepted [some "#dev"] := ⟨rfl, rfl⟩

/-- C2 counterexample: one `member` event, with `#ops` resolved both by
the repository route and by the global route — `receive` emits two
sends to the same room; nothing de-duplicates. -/
theorem C2_counterexample :
    GithubHook.receive c2_state member_req =
      GithubHook.ReceiveResult.accepted [some "#ops", some "#ops"] ∧
    ¬ ([some "#ops", some "#ops"] : List (Option String)).Nodup :=
  ⟨rfl, by decide⟩

/-- C2 (amended): among the repository routes a room is targeted at
most once per event (route rooms are dict keys, hence distinct), and
without a global event the whole target list is duplicate-free; but the
target list is literally the repo-resolved rooms plus — for a global
event — the unguarded global-route slot, with no de-duplication by room
identifier, so a room matched by both paths receives two messages. -/
theorem C2_resolution (st : GithubHook.PluginState) (et : String)
    (repo : Option String) (ge : Bool)
    (hnd : (GithubHook.get_routes st.config repo).Nodup) :
    (GithubHook.repo_rooms st.config et repo).Nodup ∧
    GithubHook.resolve_rooms st et repo ge =
      (GithubHook.repo_rooms st.config et repo).map some ++
        (if ge then [st.global_route] else []) ∧
    (ge = false → (GithubHook.resolve_rooms st et repo ge).Nodup) := by
  have hrepo : (GithubHook.repo_rooms st.config et repo).Nodup := by
    unfold GithubHook.repo_rooms
    unfold GithubHook.get_routes at hnd
    cases hg : GithubHook.get_repo st.config repo with
    | none => simp
    | some rc =>
      rw [hg] at hnd
      exact hnd.sublist ((List.filter_sublist rc.routes).map (fun p => p.1))
  refine ⟨hrepo, rfl, ?_⟩
  intro hge
  subst hge
  unfold GithubHook.resolve_rooms
  simp only [if_false, List.append_nil, Bool.false_eq_true]
  exact hrepo.map (fun a b hab => Option.some.inj hab)

theorem C2_resolution_witness :
    (GithubHook.get_routes c2_state.config (some "octo/widgets")).Nodup ∧
    (GithubHook.repo_rooms c2_state.config "member" (some "octo/widgets")).Nodup ∧
    (GithubHook.resolve_rooms c2_state "member" (some "octo/widgets") false).Nodup :=
  ⟨by decide,
   (C2_resolution c2_state "member" (some "octo/widgets") false (by decide)).1,
   (C2_resolution c2_state "member" (some "octo/widgets") false (by decide)).2.2 rfl⟩

/-- Inverting an accepted `receive` with a non-empty send list: the
sends are exactly `resolve_rooms` of the processed event. -/
theorem receive_accepted_inv (st : GithubHook.PluginState) (r : Request)
    (sends : List (Option String))
    (h : GithubHook.receive st r = GithubHook.ReceiveResult.accepted sends)
    (hne : sends ≠ []) :
    ∃ et body repo,
      get_header r "X-Github-Event" = some et ∧ r.json = some body ∧
      GithubHook.repo_of_body body = Except.ok repo ∧
      sends = GithubHook.resolve_rooms st (pyLower et) repo
        (GithubHook.is_global_event (pyLower et) repo body) := by
  unfold GithubHook.receive at h
  by_cases hv : GithubHook.validate_incoming r = true
  · rw [if_pos hv] at h
    obtain ⟨⟨et, het⟩, ⟨b, hb, _⟩⟩ := validate_incoming_inv r hv
    rw [het, hb] at h
    have h : GithubHook.receive_core st (pyLower et) b =
        GithubHook.ReceiveResult.accepted sends := h
    refine ⟨et, b, ?_⟩
    unfold GithubHook.receive_core at h
    by_cases hp : (pyLower et == "ping") = true
    · exfalso
      rw [if_pos hp] at h
      cases harm : (jget b "hook") >>= (fun hk => jget hk "url") with
      | ok u =>
        rw [harm] at h
        exact hne (GithubHook.ReceiveResult.accepted.inj h).symm
      | error e => rw [harm] at h; simp at h
    · rw [if_neg hp] at h
      cases hrb : GithubHook.repo_of_body b with
      | error e => rw [hrb] at h; simp at h
      | ok repo =>
        rw [hrb] at h
        dsimp only at h
        by_cases hu : ((GithubHook.get_repo st.config repo).isNone &&
            !GithubHook.is_global_event (pyLower et) repo b) = true
        · rw [if_pos hu] at h
          exact absurd (GithubHook.ReceiveResult.accepted.inj h).symm hne
        · rw [if_neg hu] at h
          cases hd : GithubHook.dispatch_message (pyLower et) b repo with
          | error e => rw [hd] at h; simp at h
          | ok m =>
            rw [hd] at h
            cases m with
            | none =>
              simp only at h
              exact absurd (GithubHook.ReceiveResult.accepted.inj h).symm hne
            | some msg =>
              simp only at h
              exact ⟨repo, het, hb, rfl, (GithubHook.ReceiveResult.accepted.inj h).symm⟩
  · rw [if_neg hv] at h
    simp at h

/-- C6 counterexample: a global (`member`) event with no global route
set (`global_route = None`): `receive` still emits a delivery to the
`None` room instead of skipping the global slot — the repository
routing table resolves no room at all here. -/
theorem C6_counterexample :
    c6_state.global_route = none ∧
    GithubHook.receive c6_state member_req =
      GithubHook.ReceiveResult.accepted [none] := ⟨rfl, rfl⟩

/-- C6 (amended): whenever a dispatched event is classified global and
any delivery happens, the current `global_route` value is among the
`join_and_send` targets unconditionally — also when no global route is
set, in which case the dispatcher attempts a delivery to room `None`
rather than delivering only to the repository-resolved rooms. -/
theorem C6_global_unconditional (st : GithubHook.PluginState) (r : Request)
    (sends : List (Option String))
    (h : GithubHook.receive st r = GithubHook.ReceiveResult.accepted sends)
    (hne : sends ≠ [])
    (hg : GithubHook.is_global_event (GithubHook.event_type_of r) none J.null = true) :
    st.global_route ∈ sends := by
  obtain ⟨et, body, repo, het, hb, hrb, hs⟩ := receive_accepted_inv st r sends h hne
  have hev : GithubHook.event_type_of r = pyLower et := by
    unfold GithubHook.event_type_of
    rw [het]
  rw [hev] at hg
  have hg2 : GithubHook.is_global_event (pyLower et) repo body = true := hg
  rw [hs]
  unfold GithubHook.resolve_rooms
  rw [hg2]
  simp

theorem C6_global_unconditional_witness :
    GithubHook.receive c6_state member_req =
      GithubHook.ReceiveResult.accepted [none] ∧
    c6_state.global_route ∈ ([none] : List (Option String)) :=
  ⟨rfl, C6_global_unconditional c6_state member_req [none] rfl (by decide) (by decide)⟩
